import Mathlib

/-!
Verification of the rock-paper-scissors command-line game (src/src/main.rs).

The Rust source is shallowly embedded: the `Move` and `GameResult` enums,
the `PartialOrd` implementation (`partial_cmp`), the `FromStr` implementation
(`from_str`), the `Distribution<Move>` sampling map, the outcome function
`calculate_winner`, and the observable behaviour of `main` (exit status and
the printed lines).
-/

namespace RPS

/-- The `Move` enum of main.rs: `Rock`, `Paper`, `Scissors`. -/
inductive Move where
  | Rock
  | Paper
  | Scissors
deriving DecidableEq, Repr

/-- The `GameResult` enum of main.rs: `UserWin`, `OpponentWin`, `Tie`. -/
inductive GameResult where
  | UserWin
  | OpponentWin
  | Tie
deriving DecidableEq, Repr

instance : Fintype Move :=
  ⟨⟨{Move.Rock, Move.Paper, Move.Scissors}, by decide⟩, by intro x; cases x <;> decide⟩

/-- `impl PartialOrd for Move :: partial_cmp`, the nine-case match of main.rs
(lines 37-51).  Rust's `Ordering::Less/Equal/Greater` is Lean's
`Ordering.lt/eq/gt`; the `Option` wrapping mirrors `Option<Ordering>`. -/
def partial_cmp (a b : Move) : Option Ordering :=
  match a, b with
  | Move.Rock, Move.Rock => some Ordering.eq
  | Move.Rock, Move.Paper => some Ordering.lt
  | Move.Rock, Move.Scissors => some Ordering.gt
  | Move.Paper, Move.Rock => some Ordering.gt
  | Move.Paper, Move.Paper => some Ordering.eq
  | Move.Paper, Move.Scissors => some Ordering.lt
  | Move.Scissors, Move.Rock => some Ordering.lt
  | Move.Scissors, Move.Paper => some Ordering.gt
  | Move.Scissors, Move.Scissors => some Ordering.eq

/-- Rust's `a > b` for a `PartialOrd` type: `partial_cmp(a, b) == Some(Greater)`. -/
def moveGt (a b : Move) : Bool := partial_cmp a b = some Ordering.gt

/-- Rust's `a < b` for a `PartialOrd` type: `partial_cmp(a, b) == Some(Less)`. -/
def moveLt (a b : Move) : Bool := partial_cmp a b = some Ordering.lt

/-- `calculate_winner` of main.rs (lines 105-113): `user > opponent` gives
`UserWin`, `user == opponent` gives `Tie`, otherwise `OpponentWin`.
`==` is the derived structural `PartialEq`. -/
def calculate_winner (user opponent : Move) : GameResult :=
  if moveGt user opponent then GameResult.UserWin
  else if user = opponent then GameResult.Tie
  else GameResult.OpponentWin

/-- The relevant variant of Rust's `clap::ErrorKind` returned by `from_str`. -/
inductive ErrorKind where
  | InvalidValue
deriving DecidableEq, Repr

/-- `char::to_ascii_lowercase`: maps `A`-`Z` to `a`-`z` and leaves every
other character unchanged. -/
def charToAsciiLowercase (c : Char) : Char :=
  if c.val ≥ 65 ∧ c.val ≤ 90 then Char.ofNat (c.toNat + 32) else c

/-- `str::to_ascii_lowercase`: character-wise ASCII lowercasing. -/
def toAsciiLowercase (s : String) : String :=
  ⟨s.data.map charToAsciiLowercase⟩

/-- `impl FromStr for Move :: from_str` of main.rs (lines 53-64): lowercase
the input (ASCII) and match it against `"rock"`, `"paper"`, `"scissors"`;
anything else is `Err(clap::ErrorKind::InvalidValue)`. -/
def from_str (s : String) : Except ErrorKind Move :=
  let l := toAsciiLowercase s
  if l = "rock" then Except.ok Move.Rock
  else if l = "paper" then Except.ok Move.Paper
  else if l = "scissors" then Except.ok Move.Scissors
  else Except.error ErrorKind.InvalidValue

/-- Spec-side notion used by the parsing claim: `s` is a letter-casing
variant of the (already lowercase) word `t` when lowercasing each character
of `s` (ASCII) yields exactly the characters of `t`. -/
def isCasingVariantOf (s t : String) : Prop :=
  s.data.map charToAsciiLowercase = t.data

instance (s t : String) : Decidable (isCasingVariantOf s t) := by
  unfold isCasingVariantOf; infer_instance

/-- The body of `impl Distribution<Move> for Standard :: sample` of main.rs
(lines 27-35): the match mapping the generator's draw over `0..=2` to a
`Move` (`0 => Rock`, `1 => Paper`, `_ => Scissors`). -/
def sampleMatch (n : Nat) : Move :=
  match n with
  | 0 => Move.Rock
  | 1 => Move.Paper
  | _ => Move.Scissors

/-- The sampling map restricted to the draw's actual range `{0, 1, 2}`. -/
def sampleMove (n : Fin 3) : Move := sampleMatch n.val

/-- The spec's dominance table, written down independently of the code:
row = player, column = opponent. -/
def domTable (player opponent : Move) : GameResult :=
  match player, opponent with
  | Move.Rock, Move.Rock => GameResult.Tie
  | Move.Rock, Move.Paper => GameResult.OpponentWin
  | Move.Rock, Move.Scissors => GameResult.UserWin
  | Move.Paper, Move.Rock => GameResult.UserWin
  | Move.Paper, Move.Paper => GameResult.Tie
  | Move.Paper, Move.Scissors => GameResult.OpponentWin
  | Move.Scissors, Move.Rock => GameResult.OpponentWin
  | Move.Scissors, Move.Paper => GameResult.UserWin
  | Move.Scissors, Move.Scissors => GameResult.Tie

/-- Modelled from the spec: the rand crate's `StdRng` is not part of this
repository's sources; per the spec it is "a deterministic pseudorandom
generator initialized from that seed".  We model it as a state machine whose
state is a pure function of the seed. -/
structure StdRngModel where
  state : Nat
deriving DecidableEq, Repr

/-- Modelled from the spec: `StdRng::seed_from_u64` — the generator state is
derived from the seed alone. -/
def seed_from_u64 (seed : Nat) : StdRngModel := ⟨seed⟩

/-- Modelled from the spec: `rng.gen_range(0..=2)` — a deterministic draw in
`{0, 1, 2}` that depends only on the generator state, returning the drawn
value and the advanced state. -/
def gen_range_0_2 (r : StdRngModel) : Fin 3 × StdRngModel :=
  (⟨r.state % 3, Nat.mod_lt _ (by decide)⟩, ⟨r.state / 3⟩)

/-- The opponent move produced in `main` (lines 86-92) when a numeric seed is
supplied: seed the generator, draw once, map the draw through `sample`. -/
def opponentMoveFromSeed (seed : Nat) : Move :=
  sampleMove (gen_range_0_2 (seed_from_u64 seed)).1

/-- The observable outcome of one run of `main`: the exit status, the result
line printed to stdout (if any), and the diagnostic printed to stderr (if
any). -/
structure RunResult where
  exitCode : Nat
  stdoutLine : Option String
  stderrLine : Option String
deriving DecidableEq, Repr

/-- The outcome phrase printed by `main` (lines 98-102). -/
def resultPhrase : GameResult → String
  | GameResult.UserWin => "You win!"
  | GameResult.Tie => "Tie"
  | GameResult.OpponentWin => "You lose!"

/-- `{:?}` rendering of a `Move` by the derived `Debug` impl. -/
def moveDebug : Move → String
  | Move.Rock => "Rock"
  | Move.Paper => "Paper"
  | Move.Scissors => "Scissors"

/-- `main` of main.rs (lines 72-103), parameterised by the initial generator
state (from the seed or from entropy): parse the move, exiting with status 1
and the diagnostic `"Invalid move"` on failure; otherwise draw the opponent
move, print the result line and finish with status 0. -/
def runMain (pattern : String) (rng : StdRngModel) : RunResult :=
  match from_str pattern with
  | Except.error _ =>
      { exitCode := 1, stdoutLine := none, stderrLine := some "Invalid move" }
  | Except.ok ourMove =>
      let opponentMove := sampleMove (gen_range_0_2 rng).1
      { exitCode := 0
        stdoutLine := some ("Opponent's move: " ++ moveDebug opponentMove ++ ". "
          ++ resultPhrase (calculate_winner ourMove opponentMove))
        stderrLine := none }

/-- The unsigned 64-bit seed type of the `Cli` struct (main.rs lines 13-18):
`seed: Option<u64>`, a natural number below `2^64`. -/
structure U64 where
  val : Nat
  isLt : val < 2 ^ 64
deriving DecidableEq, Repr

/-- The `Cli` struct of main.rs (lines 13-18): the positional move text and
the optional unsigned 64-bit seed. -/
structure Cli where
  pattern : String
  seed : Option U64

/-- The seed value `main` (lines 86-89) hands to `StdRng::seed_from_u64`
when a seed was supplied. -/
def seedUsed (c : Cli) : Option Nat := c.seed.map U64.val

end RPS

namespace RPS

/-- C1: for every pair of the nine Move pairs, `calculate_winner` equals the
spec's dominance table: `UserWin` when the user's move dominates, `Tie` on
equal moves, `OpponentWin` otherwise. -/
theorem calculate_winner_matches_table :
    ∀ user opponent : Move, calculate_winner user opponent = domTable user opponent := by
  decide

/-- C2: `calculate_winner` always yields exactly one of the three results,
and swapping the arguments swaps `UserWin` with `OpponentWin` and fixes
`Tie`. -/
theorem calculate_winner_antisymmetric :
    ∀ a b : Move,
      (calculate_winner a b = GameResult.UserWin ∨
       calculate_winner a b = GameResult.Tie ∨
       calculate_winner a b = GameResult.OpponentWin) ∧
      (calculate_winner a b = GameResult.UserWin ↔
        calculate_winner b a = GameResult.OpponentWin) ∧
      (calculate_winner a b = GameResult.Tie ↔
        calculate_winner b a = GameResult.Tie) := by
  decide

/-- C3: `calculate_winner(a, a) = Tie` for each of the three moves. -/
theorem calculate_winner_refl :
    ∀ a : Move, calculate_winner a a = GameResult.Tie := by
  decide

/-- C4: the dominance relation is a total cyclic order: Rock beats Scissors,
Scissors beats Paper, Paper beats Rock, and every move ties itself. -/
theorem dominance_cyclic :
    calculate_winner Move.Rock Move.Scissors = GameResult.UserWin ∧
    calculate_winner Move.Scissors Move.Paper = GameResult.UserWin ∧
    calculate_winner Move.Paper Move.Rock = GameResult.UserWin ∧
    (∀ a : Move, calculate_winner a a = GameResult.Tie) := by
  decide

/-- Lowercasing characterisation of `toAsciiLowercase` as string equality. -/
theorem toAsciiLowercase_eq_iff (s t : String) :
    toAsciiLowercase s = t ↔ isCasingVariantOf s t := by
  cases t
  exact ⟨fun h => congrArg String.data h, fun h => congrArg String.mk h⟩

/-- C5: `from_str` succeeds with `Rock`, `Paper`, `Scissors` exactly on the
letter-casing variants of `"rock"`, `"paper"`, `"scissors"` respectively, and
fails with `InvalidValue` on every other string. -/
theorem from_str_spec (s : String) :
    (from_str s = Except.ok Move.Rock ↔ isCasingVariantOf s "rock") ∧
    (from_str s = Except.ok Move.Paper ↔ isCasingVariantOf s "paper") ∧
    (from_str s = Except.ok Move.Scissors ↔ isCasingVariantOf s "scissors") ∧
    (from_str s = Except.error ErrorKind.InvalidValue ↔
      ¬ (isCasingVariantOf s "rock" ∨ isCasingVariantOf s "paper" ∨
         isCasingVariantOf s "scissors")) := by
  have hr := toAsciiLowercase_eq_iff s "rock"
  have hp := toAsciiLowercase_eq_iff s "paper"
  have hs := toAsciiLowercase_eq_iff s "scissors"
  unfold from_str
  by_cases h1 : toAsciiLowercase s = "rock"
  · rw [if_pos h1]
    refine ⟨iff_of_true rfl (hr.mp h1), ?_, ?_, ?_⟩
    · exact iff_of_false (by simp)
        (fun hc => absurd (h1.symm.trans (hp.mpr hc)) (by decide))
    · exact iff_of_false (by simp)
        (fun hc => absurd (h1.symm.trans (hs.mpr hc)) (by decide))
    · exact iff_of_false (by simp) (fun hn => hn (Or.inl (hr.mp h1)))
  · rw [if_neg h1]
    by_cases h2 : toAsciiLowercase s = "paper"
    · rw [if_pos h2]
      refine ⟨?_, iff_of_true rfl (hp.mp h2), ?_, ?_⟩
      · exact iff_of_false (by simp)
          (fun hc => absurd (h2.symm.trans (hr.mpr hc)) (by decide))
      · exact iff_of_false (by simp)
          (fun hc => absurd (h2.symm.trans (hs.mpr hc)) (by decide))
      · exact iff_of_false (by simp) (fun hn => hn (Or.inr (Or.inl (hp.mp h2))))
    · rw [if_neg h2]
      by_cases h3 : toAsciiLowercase s = "scissors"
      · rw [if_pos h3]
        refine ⟨?_, ?_, iff_of_true rfl (hs.mp h3), ?_⟩
        · exact iff_of_false (by simp)
            (fun hc => absurd (h3.symm.trans (hr.mpr hc)) (by decide))
        · exact iff_of_false (by simp)
            (fun hc => absurd (h3.symm.trans (hp.mpr hc)) (by decide))
        · exact iff_of_false (by simp)
            (fun hn => hn (Or.inr (Or.inr (hs.mp h3))))
      · rw [if_neg h3]
        refine ⟨?_, ?_, ?_, ?_⟩
        · exact iff_of_false (by simp) (fun hc => h1 (hr.mpr hc))
        · exact iff_of_false (by simp) (fun hc => h2 (hp.mpr hc))
        · exact iff_of_false (by simp) (fun hc => h3 (hs.mpr hc))
        · refine iff_of_true rfl ?_
          rintro (hc | hc | hc)
          · exact h1 (hr.mpr hc)
          · exact h2 (hp.mpr hc)
          · exact h3 (hs.mpr hc)

/-- C6: the sampling map sends 0 to Rock, 1 to Paper, 2 to Scissors, is a
bijection from the draw range `{0, 1, 2}` onto `Move`, and therefore each
move has exactly one preimage under it (a uniform draw yields a uniform
move). -/
theorem sampleMove_uniform_bijection :
    sampleMove 0 = Move.Rock ∧ sampleMove 1 = Move.Paper ∧
    sampleMove 2 = Move.Scissors ∧
    Function.Bijective sampleMove ∧
    (∀ m : Move, (Finset.univ.filter (fun n : Fin 3 => sampleMove n = m)).card = 1) := by
  refine ⟨rfl, rfl, rfl, ?_, by decide⟩
  constructor
  · intro a b hab
    fin_cases a <;> fin_cases b <;> simp_all [sampleMove, sampleMatch]
  · intro m
    cases m
    · exact ⟨0, rfl⟩
    · exact ⟨1, rfl⟩
    · exact ⟨2, rfl⟩

/-- C7: opponent-move generation from a numeric seed is deterministic — equal
seeds give equal opponent moves. -/
theorem seeded_opponent_deterministic (s t : Nat) (h : s = t) :
    opponentMoveFromSeed s = opponentMoveFromSeed t := by
  rw [h]

/-- Witness for C7: seed 5 twice gives the same move. -/
theorem seeded_opponent_deterministic_witness :
    opponentMoveFromSeed 5 = opponentMoveFromSeed 5 :=
  seeded_opponent_deterministic 5 5 rfl

/-- C8: when the move parses, `main` exits with status 0 and prints a result
line; when it fails to parse, `main` exits with a non-zero status, prints the
diagnostic to stderr, and prints no result line. -/
theorem runMain_exit_behaviour (pattern : String) (rng : StdRngModel) :
    ((∃ m, from_str pattern = Except.ok m) →
      (runMain pattern rng).exitCode = 0 ∧ (runMain pattern rng).stdoutLine ≠ none) ∧
    ((∃ e, from_str pattern = Except.error e) →
      (runMain pattern rng).exitCode ≠ 0 ∧ (runMain pattern rng).stdoutLine = none ∧
      (runMain pattern rng).stderrLine = some "Invalid move") := by
  constructor
  · rintro ⟨m, hm⟩
    simp [runMain, hm]
  · rintro ⟨e, he⟩
    simp [runMain, he]

/-- Witness for C8: on input `"rock"` the run exits 0 with a result line; on
input `"banana"` it exits non-zero with the diagnostic and no result line. -/
theorem runMain_exit_behaviour_witness :
    ((runMain "rock" ⟨0⟩).exitCode = 0 ∧ (runMain "rock" ⟨0⟩).stdoutLine ≠ none) ∧
    ((runMain "banana" ⟨0⟩).exitCode ≠ 0 ∧ (runMain "banana" ⟨0⟩).stdoutLine = none ∧
      (runMain "banana" ⟨0⟩).stderrLine = some "Invalid move") :=
  ⟨(runMain_exit_behaviour "rock" ⟨0⟩).1 ⟨Move.Rock, rfl⟩,
   (runMain_exit_behaviour "banana" ⟨0⟩).2 ⟨ErrorKind.InvalidValue, rfl⟩⟩

/-- C9: `partial_cmp` never returns `none`, so the comparisons in
`calculate_winner` are total and it is defined on all nine pairs, even though
the relation is not transitive (Rock < Paper, Paper < Scissors, yet
Rock > Scissors). -/
theorem partial_cmp_total_not_transitive :
    (∀ a b : Move, (partial_cmp a b).isSome = true) ∧
    (∀ a b : Move, calculate_winner a b = GameResult.UserWin ∨
      calculate_winner a b = GameResult.Tie ∨
      calculate_winner a b = GameResult.OpponentWin) ∧
    moveLt Move.Rock Move.Paper = true ∧
    moveLt Move.Paper Move.Scissors = true ∧
    moveGt Move.Rock Move.Scissors = true := by
  decide

/-- C10: every seed handed to the deterministic generator comes from the
`u64` field of `Cli`, hence lies in `[0, 2^64)`; in particular no negative
value is representable. -/
theorem seed_in_u64_range (c : Cli) (s : Nat) (h : seedUsed c = some s) :
    (0 : Int) ≤ (s : Int) ∧ s < 2 ^ 64 := by
  obtain ⟨u, hu, rfl⟩ := Option.map_eq_some'.mp h
  exact ⟨Int.ofNat_nonneg _, u.isLt⟩

/-- Witness for C10: a concrete `Cli` with seed 42. -/
theorem seed_in_u64_range_witness :
    (0 : Int) ≤ ((42 : Nat) : Int) ∧ (42 : Nat) < 2 ^ 64 :=
  seed_in_u64_range ⟨"rock", some ⟨42, by norm_num⟩⟩ 42 rfl

end RPS
